import Mathlib

/-!
Shallow embedding of the frugal-router core: the per-controller route
metadata written by the decorators, the dispatcher (`Router.register`,
`Router.middleware`, the per-request handler closure, `Router.sendNoData`,
`Router.handleUnknownException`, `Router.notFoundHandler`), the
`HttpException` error type, and the `HttpStatus` decorator's mutation of the
shared status-code map.  Theorems settle the specification claims against
these definitions.
-/

namespace FrugalRouter

/-- HTTP methods supported by the route decorators (models `EHttpMethod`). -/
inductive EHttpMethod
  | GET
  | PUT
  | POST
  | PATCH
  | DELETE
deriving DecidableEq, Repr

/-- One accumulated route entry (models the `RouteDefinition` interface). -/
structure RouteDefinition where
  requestMethod : EHttpMethod
  path : String
  methodName : String
deriving DecidableEq, Repr

/-- JavaScript values as far as the dispatcher inspects them: it only ever
asks whether a controller method's return value is truthy, and otherwise
passes the value through to `res.json`. -/
inductive JsValue
  | undef
  | jsNull
  | jsBool (b : Bool)
  | jsNum (n : Int)
  | jsStr (s : String)
  | jsObj (id : Nat)
deriving DecidableEq, Repr

/-- JavaScript truthiness of a value, as tested by `!response`. -/
def JsValue.truthy : JsValue → Bool
  | .undef => false
  | .jsNull => false
  | .jsBool b => b
  | .jsNum n => n != 0
  | .jsStr s => s != ""
  | .jsObj _ => true

/-- Bodies the dispatcher can hand to the response object: a JSON
serialization of a controller return value, the literal
`\x7berror, status\x7d` object built on the error paths, or the empty body
of `res.status(204).send()`. -/
inductive ResBody
  | jsonOf (v : JsValue)
  | errorObj (error : String) (status : Nat)
  | empty
deriving DecidableEq, Repr

/-- One write performed on the Express response object. -/
inductive ResWrite
  | json (status : Nat) (body : ResBody)
  | send (status : Nat)
deriving DecidableEq, Repr

/-- One diagnostic record emitted to `console.warn` / `console.error`:
the controller name, the composed route path, the controller method name
and the HTTP method, exactly the fields interpolated by `sendNoData` and
`handleUnknownException`. -/
structure Diagnostic where
  controllerName : String
  routePath : String
  methodName : String
  httpMethod : EHttpMethod
deriving DecidableEq, Repr

/-- The observable effect of one handler invocation: the response writes it
performs, and the diagnostics it sends to the warning channel
(`console.warn`) and the error channel (`console.error`). -/
structure HandlerEffect where
  writes : List ResWrite
  warns : List Diagnostic
  errors : List Diagnostic
deriving DecidableEq, Repr

/-- JavaScript string coercion of a possibly-undefined metadata value, as it
happens in `prefix + route.path`: an undefined operand renders as the string
"undefined". -/
def jsStringOf : Option String → String
  | some s => s
  | none => "undefined"

/-- The full route path, `prefix + route.path`, plain string concatenation
with no normalization (line 47 of the Router source). -/
def composePath (pfx : Option String) (p : String) : String :=
  jsStringOf pfx ++ p

/-- JS `Map.get` on an association list holding the map contents. -/
def mapGet : List (String × Nat) → String → Option Nat
  | [], _ => none
  | (k, v) :: t, key => if k = key then some v else mapGet t key

/-- JS `Map.set` on an association list: overwrite an existing key in place,
otherwise append the new binding. -/
def mapSet : List (String × Nat) → String → Nat → List (String × Nat)
  | [], key, code => [(key, code)]
  | (k, v) :: t, key, code =>
      if k = key then (k, code) :: t else (k, v) :: mapSet t key code

/-- The expression `statusCodes ? statusCodes.get(route.methodName) : null`
from line 87: `none` both when the map metadata was never defined and when
the map has no entry for the method name. -/
def lookupOverride (sc : Option (List (String × Nat))) (name : String) :
    Option Nat :=
  match sc with
  | none => none
  | some m => mapGet m name

/-- JavaScript `x || d` where `x` is the possibly-undefined number from the
map lookup: `undefined`, `null` and `0` are falsy and select the default. -/
def jsOrDefault (x : Option Nat) (d : Nat) : Nat :=
  match x with
  | none => d
  | some n => if n = 0 then d else n

/-- Status-code resolution from lines 86-88 of the Router source:
the override looked up in the captured map, `||` the method-based default
(201 for POST, 200 otherwise). -/
def resolveStatus (sc : Option (List (String × Nat))) (name : String)
    (m : EHttpMethod) : Nat :=
  jsOrDefault (lookupOverride sc name)
    (if m = EHttpMethod.POST then 201 else 200)

/-- Everything a bound handler closure has captured: the controller name
(`controller.toString().split(' ')[1]`), the `prefix` metadata, the route
entry, and the contents visible through the captured status-code map at the
moment of the request. -/
structure HandlerCtx where
  controllerName : String
  pfx : Option String
  route : RouteDefinition
  statusCodes : Option (List (String × Nat))
deriving DecidableEq, Repr

/-- The diagnostic record both `sendNoData` and `handleUnknownException`
interpolate into their console output. -/
def diagOf (ctx : HandlerCtx) : Diagnostic :=
  { controllerName := ctx.controllerName
    routePath := composePath ctx.pfx ctx.route.path
    methodName := ctx.route.methodName
    httpMethod := ctx.route.requestMethod }

/-- How the awaited controller-method call settled. -/
inductive Thrown
  | httpException (error : String) (status : Nat)
  | other (detail : String)
deriving DecidableEq, Repr

/-- Result of `await instance[route.methodName](req, res)`: a returned value
or a thrown/rejected error. -/
inductive CallResult
  | ret (v : JsValue)
  | throwE (e : Thrown)
deriving DecidableEq, Repr

/-- The per-request handler body (lines 62-108 of the Router source).
`finished` is `res.finished` after the controller call settles.
The `ret` branch follows lines 74-92: early return when the value is falsy
and the response is finished; `sendNoData` (warn, then 204 empty send) when
the value is falsy and the response is not finished; otherwise a JSON write
at the resolved status.  The catch branch follows lines 99-107:
`HttpException` is replayed as its own status and payload, anything else
goes through `handleUnknownException` (error diagnostic, then 500). -/
def handleRequest (ctx : HandlerCtx) (result : CallResult) (finished : Bool) :
    HandlerEffect :=
  match result with
  | .ret v =>
      if !v.truthy && finished then
        { writes := [], warns := [], errors := [] }
      else if !v.truthy && !finished then
        { writes := [.send 204], warns := [diagOf ctx], errors := [] }
      else
        { writes := [.json
            (resolveStatus ctx.statusCodes ctx.route.methodName
              ctx.route.requestMethod) (.jsonOf v)]
          warns := []
          errors := [] }
  | .throwE (.httpException m s) =>
      { writes := [.json s (.errorObj m s)], warns := [], errors := [] }
  | .throwE (.other _) =>
      { writes := [.json 500 (.errorObj "Internal Server Error" 500)]
        warns := []
        errors := [diagOf ctx] }

/-- The reflect-metadata state of one controller class, as read by
`Router.register` (lines 30-38): each key may be absent. -/
structure ControllerMeta where
  controllerName : String
  pfxMeta : Option String
  routesMeta : Option (List RouteDefinition)
  statusMeta : Option (List (String × Nat))
deriving DecidableEq, Repr

/-- The runtime error raised inside `register` when the `routes` metadata is
undefined: `routes.forEach` on `undefined` throws a TypeError, aborting
registration.  This is the concrete shape of the spec's
ConfigurationFailure. -/
inductive RegError
  | typeErrorUndefinedRoutes
deriving DecidableEq, Repr

/-- One handler bound on the Express router: the HTTP method, the composed
path, and the captured handler context. -/
structure BoundRoute where
  httpMethod : EHttpMethod
  fullPath : String
  ctx : HandlerCtx
deriving DecidableEq, Repr

/-- `Router.register` (lines 22-112): read the `prefix`, status-code and
`routes` metadata, then bind one handler per route entry at
`prefix + route.path`.  When the `routes` metadata does not exist the
`forEach` call throws and nothing is bound. -/
def register (md : ControllerMeta) : Except RegError (List BoundRoute) :=
  match md.routesMeta with
  | none => .error .typeErrorUndefinedRoutes
  | some routes =>
      .ok (routes.map (fun r =>
        { httpMethod := r.requestMethod
          fullPath := composePath md.pfxMeta r.path
          ctx := { controllerName := md.controllerName
                   pfx := md.pfxMeta
                   route := r
                   statusCodes := md.statusMeta } }))

/-- The assembled routing surface: the bound routes in registration order,
and whether the terminal not-found handler has been appended. -/
structure RouterSurface where
  stack : List BoundRoute
  notFoundInstalled : Bool
deriving DecidableEq, Repr

/-- `Router.middleware` (lines 117-120): append the not-found handler after
every bound route and return the surface. -/
def middleware (stack : List BoundRoute) : RouterSurface :=
  { stack := stack, notFoundInstalled := true }

/-- Whether a bound route matches an inbound request, in the collaborator's
exact method-and-path sense. -/
def routeMatches (br : BoundRoute) (m : EHttpMethod) (path : String) : Bool :=
  br.httpMethod = m && br.fullPath = path

/-- `Router.notFoundHandler` (lines 125-132): a 404 JSON reply. -/
def notFoundEffect : HandlerEffect :=
  { writes := [.json 404 (.errorObj "Not Found" 404)]
    warns := []
    errors := [] }

/-- Dispatch of one inbound request against the surface: the first matching
bound route runs its handler on the controller call's outcome; when nothing
matches, the appended not-found handler replies (and with no such handler
installed the request falls through unanswered).  `call` supplies, per bound
route, how the controller method settles and the `res.finished` flag after
it settles. -/
def dispatch (surface : RouterSurface) (m : EHttpMethod) (path : String)
    (call : BoundRoute → CallResult × Bool) : HandlerEffect :=
  match surface.stack.find? (fun br => routeMatches br m path) with
  | some br => handleRequest br.ctx (call br).1 (call br).2
  | none =>
      if surface.notFoundInstalled then notFoundEffect
      else { writes := [], warns := [], errors := [] }

/-- Heap of JS `Map` objects, keyed by object identity: the
`response_status_codes` metadata stores a reference into this heap, and both
the `HttpStatus` decorator and the bound handlers read or mutate the object
it designates. -/
structure StatusWorld where
  heap : List (Nat × List (String × Nat))
  nextId : Nat
  metaRef : Option Nat
deriving DecidableEq, Repr

/-- Dereference a map object id in the heap. -/
def heapGet : List (Nat × List (String × Nat)) → Nat →
    Option (List (String × Nat))
  | [], _ => none
  | (i, m) :: t, r => if i = r then some m else heapGet t r

/-- Mutate the map object designated by `r` in place with `Map.set`. -/
def heapSet : List (Nat × List (String × Nat)) → Nat → String → Nat →
    List (Nat × List (String × Nat))
  | [], _, _, _ => []
  | (i, m) :: t, r, k, c =>
      if i = r then (i, mapSet m k c) :: t else (i, m) :: heapSet t r k c

/-- The `HttpStatus` decorator: when no `response_status_codes` metadata
exists, define a fresh empty `Map` as the metadata; then `set` the method's
code on the (possibly fresh) map object, which the metadata keeps
designating. -/
def declareStatus (w : StatusWorld) (handlerName : String) (code : Nat) :
    StatusWorld :=
  match w.metaRef with
  | none =>
      { heap := w.heap ++ [(w.nextId, mapSet [] handlerName code)]
        nextId := w.nextId + 1
        metaRef := some w.nextId }
  | some r => { w with heap := heapSet w.heap r handlerName code }

/-- The map contents a handler closure sees at request time through the map
reference it captured at registration: `statusCodes.get` reads the current
contents of the referenced object. -/
def derefStatus (w : StatusWorld) (captured : Option Nat) :
    Option (List (String × Nat)) :=
  match captured with
  | none => none
  | some r => heapGet w.heap r

/-- One request handled in world `w` by a handler that captured the map
reference `captured` at registration time. -/
def requestEffect (w : StatusWorld) (captured : Option Nat)
    (base : HandlerCtx) (result : CallResult) (finished : Bool) :
    HandlerEffect :=
  handleRequest { base with statusCodes := derefStatus w captured }
    result finished

/-! Helper lemmas shared by the claim theorems. -/

/-- `Map.set` followed by `Map.get` at the same key yields the new code. -/
theorem mapGet_mapSet (m : List (String × Nat)) (k : String) (c : Nat) :
    mapGet (mapSet m k c) k = some c := by
  induction m with
  | nil => simp [mapSet, mapGet]
  | cons hd tl ih =>
      obtain ⟨k0, v0⟩ := hd
      by_cases h : k0 = k
      · simp [mapSet, h, mapGet]
      · simp [mapSet, h, mapGet, ih]

/-- Mutating the map object designated by `r` is visible through every later
dereference of `r`. -/
theorem heapGet_heapSet (h : List (Nat × List (String × Nat))) (r : Nat)
    (k : String) (c : Nat) (m : List (String × Nat))
    (hm : heapGet h r = some m) :
    heapGet (heapSet h r k c) r = some (mapSet m k c) := by
  induction h with
  | nil => simp [heapGet] at hm
  | cons hd tl ih =>
      obtain ⟨i, mm⟩ := hd
      by_cases hir : i = r
      · subst hir
        simp [heapGet] at hm
        subst hm
        simp [heapSet, heapGet]
      · simp [heapGet, hir] at hm
        simp [heapSet, heapGet, hir, ih hm]

/-- C3: when the controller method throws or rejects with an `HttpException`
carrying message `m` and status `s`, the handler writes exactly status `s`
with JSON body `\x7berror: m, status: s\x7d`, and nothing else: no other
write and no diagnostic, whatever the response's finished state. -/
theorem httpException_writes_exact_status_and_body (ctx : HandlerCtx)
    (m : String) (s : Nat) (finished : Bool) :
    handleRequest ctx (.throwE (.httpException m s)) finished =
      { writes := [.json s (.errorObj m s)], warns := [], errors := [] } :=
  rfl

/-- C7: when the controller method throws or rejects with any error that is
not an `HttpException`, the handler writes status 500 with JSON body
`\x7berror: "Internal Server Error", status: 500\x7d` and emits exactly one
error-channel diagnostic carrying the controller name, composed path,
handler name and HTTP method; the effect does not depend on the thrown
error's detail, so no original error information reaches the client. -/
theorem unknownError_yields_500_and_one_error_diag (ctx : HandlerCtx)
    (detail : String) (finished : Bool) :
    handleRequest ctx (.throwE (.other detail)) finished =
      { writes := [.json 500 (.errorObj "Internal Server Error" 500)]
        warns := []
        errors := [diagOf ctx] } :=
  rfl

/-- C6: when the controller method completes with no value (a falsy return)
and the response is not already sent, the handler writes a 204 empty-body
response and emits exactly one warning-channel diagnostic carrying the
controller name, composed path, handler name and HTTP method. -/
theorem noValue_yields_204_and_one_warning (ctx : HandlerCtx) (v : JsValue)
    (hv : v.truthy = false) :
    handleRequest ctx (.ret v) false =
      { writes := [.send 204], warns := [diagOf ctx], errors := [] } := by
  simp [handleRequest, hv]

/-- Witness for C6 at a concrete handler returning `undefined`. -/
theorem noValue_yields_204_and_one_warning_witness :
    handleRequest
      { controllerName := "DefaultController", pfx := some "/api"
        route := { requestMethod := .GET, path := "/x", methodName := "h" }
        statusCodes := none }
      (.ret .undef) false =
      { writes := [.send 204]
        warns := [diagOf
          { controllerName := "DefaultController", pfx := some "/api"
            route := { requestMethod := .GET, path := "/x", methodName := "h" }
            statusCodes := none }]
        errors := [] } :=
  noValue_yields_204_and_one_warning _ .undef (by decide)

/-- Counterexample to C4 as stated: with the already-sent signal set but a
truthy value returned, the dispatcher does not stay silent — it still
performs a JSON write, so "does nothing further regardless of whether the
method also returned a value" is false. -/
theorem alreadySent_truthyReturn_still_writes_cex :
    handleRequest
      { controllerName := "DefaultController", pfx := some "/api"
        route := { requestMethod := .GET, path := "/x", methodName := "h" }
        statusCodes := none }
      (.ret (.jsStr "x")) true =
      { writes := [.json 200 (.jsonOf (.jsStr "x"))], warns := []
        errors := [] } ∧
    handleRequest
      { controllerName := "DefaultController", pfx := some "/api"
        route := { requestMethod := .GET, path := "/x", methodName := "h" }
        statusCodes := none }
      (.ret (.jsStr "x")) true ≠
      { writes := [], warns := [], errors := [] } := by
  constructor
  · rfl
  · decide

/-- C4 amended: when the controller method completes, the response was
already written directly (finished), and the method returned no value
(a falsy return), the dispatcher does nothing further: no write and no
diagnostic on either channel. -/
theorem alreadySent_falsyReturn_no_further_write (ctx : HandlerCtx)
    (v : JsValue) (hv : v.truthy = false) :
    handleRequest ctx (.ret v) true =
      { writes := [], warns := [], errors := [] } := by
  simp [handleRequest, hv]

/-- Witness for the amended C4 at a concrete handler. -/
theorem alreadySent_falsyReturn_no_further_write_witness :
    handleRequest
      { controllerName := "DefaultController", pfx := some "/api"
        route := { requestMethod := .GET, path := "/x", methodName := "h" }
        statusCodes := none }
      (.ret .undef) true =
      { writes := [], warns := [], errors := [] } :=
  alreadySent_falsyReturn_no_further_write _ .undef (by decide)

/-- Counterexample to C5 as stated: a handler returning the falsy value `0`
with the response unsent does not get `0` serialized at the resolved status;
the `!response` test routes it to the 204-and-warn path instead. -/
theorem falsyReturn_not_serialized_cex :
    handleRequest
      { controllerName := "DefaultController", pfx := some "/api"
        route := { requestMethod := .GET, path := "/x", methodName := "h" }
        statusCodes := none }
      (.ret (.jsNum 0)) false =
      { writes := [.send 204]
        warns := [diagOf
          { controllerName := "DefaultController", pfx := some "/api"
            route := { requestMethod := .GET, path := "/x", methodName := "h" }
            statusCodes := none }]
        errors := [] } ∧
    handleRequest
      { controllerName := "DefaultController", pfx := some "/api"
        route := { requestMethod := .GET, path := "/x", methodName := "h" }
        statusCodes := none }
      (.ret (.jsNum 0)) false ≠
      { writes := [.json 200 (.jsonOf (.jsNum 0))], warns := []
        errors := [] } := by
  constructor
  · rfl
  · decide

/-- C5 amended: for every truthy returned value, with the response unsent,
the dispatcher performs exactly one write: the returned value serialized as
the JSON body at the resolved status, with no diagnostics.  Falsy returns
(0, the empty string, false, null, undefined) are treated as "no value" and
take the already-sent or 204 paths instead. -/
theorem truthyReturn_serialized_with_resolved_status (ctx : HandlerCtx)
    (v : JsValue) (hv : v.truthy = true) :
    handleRequest ctx (.ret v) false =
      { writes := [.json
          (resolveStatus ctx.statusCodes ctx.route.methodName
            ctx.route.requestMethod) (.jsonOf v)]
        warns := []
        errors := [] } := by
  simp [handleRequest, hv]

/-- Witness for the amended C5 at a concrete handler returning `true`. -/
theorem truthyReturn_serialized_with_resolved_status_witness :
    handleRequest
      { controllerName := "DefaultController", pfx := some "/api"
        route := { requestMethod := .GET, path := "/x", methodName := "h" }
        statusCodes := none }
      (.ret (.jsBool true)) false =
      { writes := [.json 200 (.jsonOf (.jsBool true))], warns := []
        errors := [] } :=
  truthyReturn_serialized_with_resolved_status _ (.jsBool true) (by decide)

/-- C1: for a call that returns a value with the response unsent, the status
written is the declared override for the handler name when one exists,
otherwise 201 for POST and 200 for every other method; the override wins
for every HTTP method, POST included.  The hypothesis excludes an override
of the non-HTTP code 0, which JavaScript `||` would discard. -/
theorem statusResolution_overrideWins (ctx : HandlerCtx) (v : JsValue)
    (hv : v.truthy = true)
    (h0 : lookupOverride ctx.statusCodes ctx.route.methodName ≠ some 0) :
    handleRequest ctx (.ret v) false =
      { writes := [.json
          (match lookupOverride ctx.statusCodes ctx.route.methodName with
           | some c => c
           | none =>
               if ctx.route.requestMethod = EHttpMethod.POST then 201
               else 200) (.jsonOf v)]
        warns := []
        errors := [] } := by
  have hres : resolveStatus ctx.statusCodes ctx.route.methodName
      ctx.route.requestMethod =
      (match lookupOverride ctx.statusCodes ctx.route.methodName with
       | some c => c
       | none =>
           if ctx.route.requestMethod = EHttpMethod.POST then 201
           else 200) := by
    unfold resolveStatus jsOrDefault
    cases h : lookupOverride ctx.statusCodes ctx.route.methodName with
    | none => rfl
    | some c =>
        have hc : c ≠ 0 := by
          intro hc0
          exact h0 (by rw [h, hc0])
        simp [hc]
  rw [truthyReturn_serialized_with_resolved_status ctx v hv, hres]

/-- Witness for C1: a POST route whose handler carries the explicit override
207 replies 207, overriding POST's implicit 201. -/
theorem statusResolution_overrideWins_witness :
    handleRequest
      { controllerName := "DefaultController", pfx := some "/api"
        route := { requestMethod := .POST, path := "/x", methodName := "h" }
        statusCodes := some [("h", 207)] }
      (.ret (.jsStr "x")) false =
      { writes := [.json 207 (.jsonOf (.jsStr "x"))], warns := []
        errors := [] } :=
  statusResolution_overrideWins
    { controllerName := "DefaultController", pfx := some "/api"
      route := { requestMethod := .POST, path := "/x", methodName := "h" }
      statusCodes := some [("h", 207)] }
    (.jsStr "x") (by decide) (by decide)

/-- C2: registering a controller type whose `routes` metadata does not exist
(the class was never declared through the registration decorators) aborts
registration with an error — `routes.forEach` throws on `undefined` — and
binds nothing, rather than being silently ignored. -/
theorem register_missingRouteTable_fails (md : ControllerMeta)
    (h : md.routesMeta = none) :
    register md = .error .typeErrorUndefinedRoutes := by
  simp [register, h]

/-- Witness for C2 at a concrete undeclared controller. -/
theorem register_missingRouteTable_fails_witness :
    register
      { controllerName := "NakedController", pfxMeta := none
        routesMeta := none, statusMeta := none } =
      .error .typeErrorUndefinedRoutes :=
  register_missingRouteTable_fails _ rfl

/-- C8: for a declared controller with a prefix, every bound handler's path
is the prefix concatenated with the entry's path by plain string
concatenation, method for method and entry for entry, with no
normalization. -/
theorem boundPath_is_plain_concat (md : ControllerMeta)
    (routes : List RouteDefinition) (p : String)
    (h1 : md.routesMeta = some routes) (h2 : md.pfxMeta = some p) :
    ∃ bound, register md = .ok bound ∧
      bound.map (fun b => (b.httpMethod, b.fullPath)) =
        routes.map (fun r => (r.requestMethod, p ++ r.path)) := by
  refine ⟨routes.map (fun r =>
      { httpMethod := r.requestMethod
        fullPath := composePath md.pfxMeta r.path
        ctx := { controllerName := md.controllerName, pfx := md.pfxMeta
                 route := r, statusCodes := md.statusMeta } }), ?_, ?_⟩
  · simp [register, h1]
  · simp [List.map_map, composePath, jsStringOf, h2]

/-- Witness for C8: prefix "/api" with route path "/" binds exactly
"/api/", duplicate slash preserved. -/
theorem boundPath_is_plain_concat_witness :
    ∃ bound,
      register
        { controllerName := "DefaultController", pfxMeta := some "/api"
          routesMeta :=
            some [{ requestMethod := .GET, path := "/", methodName := "h" }]
          statusMeta := none } = .ok bound ∧
      bound.map (fun b => (b.httpMethod, b.fullPath)) =
        [(EHttpMethod.GET, "/api/")] :=
  boundPath_is_plain_concat _
    [{ requestMethod := .GET, path := "/", methodName := "h" }] "/api" rfl rfl

/-- C9: after `middleware` appends the terminal catch-all, every request
that matches no bound route receives status 404 with JSON body
`\x7berror: "Not Found", status: 404\x7d`, and no diagnostics. -/
theorem middleware_notFound_catchAll (stack : List BoundRoute)
    (m : EHttpMethod) (path : String) (call : BoundRoute → CallResult × Bool)
    (h : ∀ br ∈ stack, routeMatches br m path = false) :
    dispatch (middleware stack) m path call =
      { writes := [.json 404 (.errorObj "Not Found" 404)], warns := []
        errors := [] } := by
  have hnone : stack.find? (fun br => routeMatches br m path) = none := by
    rw [List.find?_eq_none]
    intro x hx
    simp [h x hx]
  simp [dispatch, middleware, hnone, notFoundEffect]

/-- Witness for C9: a surface holding one GET route at "/api/x" answers a
POST to "/nope" with the 404 catch-all. -/
theorem middleware_notFound_catchAll_witness :
    dispatch
      (middleware
        [{ httpMethod := .GET, fullPath := "/api/x"
           ctx := { controllerName := "DefaultController", pfx := some "/api"
                    route := { requestMethod := .GET, path := "/x"
                               methodName := "h" }
                    statusCodes := none } }])
      .POST "/nope" (fun _ => (.ret .undef, false)) =
      { writes := [.json 404 (.errorObj "Not Found" 404)], warns := []
        errors := [] } :=
  middleware_notFound_catchAll _ .POST "/nope" _ (by decide)

/-- Counterexample to C10 as stated: a controller whose status map already
exists at registration time has that map captured by reference; a
`declareStatus` performed after registration mutates the same map object,
and the bound handler — which calls `statusCodes.get` per request — replies
with the new code, so a late override does change the responses. -/
theorem lateDeclareStatus_changes_status_cex :
    requestEffect
      { heap := [(0, [("h", 207)])], nextId := 1, metaRef := some 0 }
      (some 0)
      { controllerName := "DefaultController", pfx := some "/api"
        route := { requestMethod := .GET, path := "/x", methodName := "h" }
        statusCodes := none }
      (.ret (.jsStr "ok")) false =
      { writes := [.json 207 (.jsonOf (.jsStr "ok"))], warns := []
        errors := [] } ∧
    requestEffect
      (declareStatus
        { heap := [(0, [("h", 207)])], nextId := 1, metaRef := some 0 }
        "h" 418)
      (some 0)
      { controllerName := "DefaultController", pfx := some "/api"
        route := { requestMethod := .GET, path := "/x", methodName := "h" }
        statusCodes := none }
      (.ret (.jsStr "ok")) false =
      { writes := [.json 418 (.jsonOf (.jsStr "ok"))], warns := []
        errors := [] } ∧
    requestEffect
      (declareStatus
        { heap := [(0, [("h", 207)])], nextId := 1, metaRef := some 0 }
        "h" 418)
      (some 0)
      { controllerName := "DefaultController", pfx := some "/api"
        route := { requestMethod := .GET, path := "/x", methodName := "h" }
        statusCodes := none }
      (.ret (.jsStr "ok")) false ≠
    requestEffect
      { heap := [(0, [("h", 207)])], nextId := 1, metaRef := some 0 }
      (some 0)
      { controllerName := "DefaultController", pfx := some "/api"
        route := { requestMethod := .GET, path := "/x", methodName := "h" }
        statusCodes := none }
      (.ret (.jsStr "ok")) false := by
  refine ⟨rfl, rfl, ?_⟩
  decide

/-- C10 amended: routes and prefix are consumed once at registration, but
the status map is captured by reference and read per request, so a
`declareStatus` after registration, on a controller whose status map
already existed when the handler was bound, determines the status of every
subsequent successful response from that handler. -/
theorem lateDeclareStatus_visible_to_bound_handler (w : StatusWorld)
    (r : Nat) (m : List (String × Nat)) (base : HandlerCtx) (code : Nat)
    (v : JsValue) (href : w.metaRef = some r)
    (hm : heapGet w.heap r = some m) (hcode : code ≠ 0)
    (hv : v.truthy = true) :
    requestEffect (declareStatus w base.route.methodName code) (some r)
      base (.ret v) false =
      { writes := [.json code (.jsonOf v)], warns := [], errors := [] } := by
  have hderef : derefStatus (declareStatus w base.route.methodName code)
      (some r) = some (mapSet m base.route.methodName code) := by
    simp [declareStatus, href, derefStatus]
    exact heapGet_heapSet w.heap r _ _ m hm
  simp [requestEffect, hderef, handleRequest, hv, resolveStatus,
    lookupOverride, mapGet_mapSet, jsOrDefault, hcode]

/-- Witness for the amended C10: the concrete late override 418 is what the
already-bound handler replies with. -/
theorem lateDeclareStatus_visible_to_bound_handler_witness :
    requestEffect
      (declareStatus
        { heap := [(0, [("h", 207)])], nextId := 1, metaRef := some 0 }
        "h" 418)
      (some 0)
      { controllerName := "DefaultController", pfx := some "/api"
        route := { requestMethod := .GET, path := "/x", methodName := "h" }
        statusCodes := none }
      (.ret (.jsStr "ok")) false =
      { writes := [.json 418 (.jsonOf (.jsStr "ok"))], warns := []
        errors := [] } :=
  lateDeclareStatus_visible_to_bound_handler
    { heap := [(0, [("h", 207)])], nextId := 1, metaRef := some 0 }
    0 [("h", 207)]
    { controllerName := "DefaultController", pfx := some "/api"
      route := { requestMethod := .GET, path := "/x", methodName := "h" }
      statusCodes := none }
    418 (.jsStr "ok") rfl rfl (by decide) (by decide)

end FrugalRouter
